import Mathlib

/-!
Shallow embedding of the data-dashboard repository's refresh-orchestration
core (src/contexts/DashboardContext.tsx), its remote fetch layer
(src/services/api.ts), the live-data simulator hooks
(src/hooks/useRealTimeData.ts and the connection-status hook bundled with
src/pages/EnhancedDashboard.tsx), and the mock data generator
(src/services/mockDataGenerator.ts).

Conventions of the embedding:
- TypeScript numbers that the source only ever holds as integers are `Int`;
  genuinely fractional quantities are `ℚ`.
- `Math.sin` and `Math.random` results are opaque rational parameters,
  constrained only by their mathematical ranges (|sin| ≤ 1, 0 ≤ random < 1).
- Wall-clock timestamps (`new Date().toISOString()`) are threaded as an
  explicit `now : String` argument.
- A thrown JavaScript value is `JsError`; `catch` blocks are explicit
  `match`es, and what escapes an operation to its caller is an
  `Option JsError` component (`none` = the promise resolves).
- React dispatches are atomic; the single-threaded event loop is modelled
  by explicit event lists.
-/

namespace DataDashboard

/-- A thrown JavaScript value: either an `Error` instance carrying a
message, or any other thrown value. Mirrors the
`error instanceof Error ? error.message : ...` tests in the source. -/
inductive JsError where
  | errorObj (message : String)
  | otherValue (description : String)
  deriving Repr, DecidableEq

/-- Embeds `MetricCard.value : number | string` from src/types/index.ts. -/
inductive NumOrStr where
  | num (n : ℚ)
  | str (s : String)
  deriving Repr, DecidableEq

/-- Embeds `changeType?: 'increase' | 'decrease' | 'neutral'`. -/
inductive ChangeType where
  | increase
  | decrease
  | neutral
  deriving Repr, DecidableEq

/-- Embeds `MetricCard` from src/types/index.ts. -/
structure MetricCard where
  id : String
  title : String
  value : NumOrStr
  unit : Option String := none
  change : Option ℚ := none
  changeType : Option ChangeType := none
  icon : Option String := none
  color : Option String := none
  deriving Repr, DecidableEq

/-- Embeds `SalesData` from src/types/index.ts. -/
structure SalesData where
  id : String
  date : String
  amount : Int
  product : String
  category : String
  region : String
  deriving Repr, DecidableEq

/-- Embeds `UserAnalytics` from src/types/index.ts. -/
structure UserAnalytics where
  id : String
  date : String
  activeUsers : Int
  newUsers : Int
  pageViews : Int
  sessionDuration : Int
  deriving Repr, DecidableEq

/-- Embeds `PerformanceMetrics` from src/types/index.ts. -/
structure PerformanceMetrics where
  id : String
  timestamp : String
  cpuUsage : Int
  memoryUsage : Int
  responseTime : Int
  errorRate : ℚ
  deriving Repr, DecidableEq

/-- Embeds `LoadingState` from src/types/index.ts. -/
structure LoadingState where
  isLoading : Bool
  error : Option String
  lastUpdated : Option String
  deriving Repr, DecidableEq

/-- The `dateRange` component of `FilterOptions`; the source field names
`start`/`end` are rendered `rangeStart`/`rangeEnd` (`end` is reserved). -/
structure DateRange where
  rangeStart : String
  rangeEnd : String
  deriving Repr, DecidableEq

/-- Embeds `FilterOptions` from src/types/index.ts. -/
structure FilterOptions where
  dateRange : DateRange
  category : Option String := none
  region : Option String := none
  deriving Repr, DecidableEq

/-- Embeds `Partial<FilterOptions>` as used by `updateFilters`. -/
structure PartialFilterOptions where
  dateRange : Option DateRange := none
  category : Option (Option String) := none
  region : Option (Option String) := none
  deriving Repr, DecidableEq

/-- Embeds `DashboardConfig` from src/types/index.ts; `theme` and `layout` are
kept as strings. -/
structure DashboardConfig where
  refreshInterval : Int
  autoRefresh : Bool
  theme : String
  layout : String
  deriving Repr, DecidableEq

/-- Embeds `Partial<DashboardConfig>` as used by `updateConfig` / `SET_CONFIG`. -/
structure PartialDashboardConfig where
  refreshInterval : Option Int := none
  autoRefresh : Option Bool := none
  theme : Option String := none
  layout : Option String := none
  deriving Repr, DecidableEq

/-- Embeds `AppError` from src/types/index.ts. `details?: any` is modelled as the
contextual data the two producers actually store: a context string and the
original thrown value. -/
structure AppError where
  code : String
  message : String
  details : Option (String × JsError) := none
  timestamp : String
  deriving Repr, DecidableEq

/-- The spread-merge `{ ...state.filters, ...filters }` in `updateFilters`. -/
def mergeFilters (f : FilterOptions) (p : PartialFilterOptions) : FilterOptions :=
  { dateRange := p.dateRange.getD f.dateRange
    category := p.category.getD f.category
    region := p.region.getD f.region }

/-- The spread-merge `{ ...state.config, ...action.payload }` in the
`SET_CONFIG` reducer case. -/
def mergeConfig (c : DashboardConfig) (p : PartialDashboardConfig) : DashboardConfig :=
  { refreshInterval := p.refreshInterval.getD c.refreshInterval
    autoRefresh := p.autoRefresh.getD c.autoRefresh
    theme := p.theme.getD c.theme
    layout := p.layout.getD c.layout }

/-- Embeds `DashboardState` from src/contexts/DashboardContext.tsx. -/
structure DashboardState where
  metrics : List MetricCard
  salesData : List SalesData
  userAnalytics : List UserAnalytics
  performanceMetrics : List PerformanceMetrics
  loading : LoadingState
  filters : FilterOptions
  config : DashboardConfig
  error : Option AppError
  deriving Repr, DecidableEq

/-- Embeds `DashboardAction` from src/contexts/DashboardContext.tsx. The
`SET_LOADING` payload's `key` field is carried but, as in the source
reducer, never read. -/
inductive DashboardAction where
  | setLoading (key : String) (isLoading : Bool)
  | setError (payload : Option AppError)
  | setMetrics (payload : List MetricCard)
  | setSalesData (payload : List SalesData)
  | setUserAnalytics (payload : List UserAnalytics)
  | setPerformanceMetrics (payload : List PerformanceMetrics)
  | setFilters (payload : FilterOptions)
  | setConfig (payload : PartialDashboardConfig)
  | updateLastUpdated (payload : String)
  deriving Repr, DecidableEq

/-- The `||` coercion in `error: action.payload?.message || null`: an
absent payload or an empty message string both store `null`. -/
def messageOrNull (payload : Option AppError) : Option String :=
  match payload with
  | none => none
  | some e => if e.message = "" then none else some e.message

/-- Embeds `dashboardReducer` from src/contexts/DashboardContext.tsx. `now` is
the value `new Date().toISOString()` would produce at dispatch time
(used by the `SET_METRICS` case). -/
def dashboardReducer (now : String) (state : DashboardState) :
    DashboardAction → DashboardState
  | .setLoading _ b =>
      { state with loading := { state.loading with isLoading := b } }
  | .setError payload =>
      { state with
        error := payload
        loading := { state.loading with
                      isLoading := false
                      error := messageOrNull payload } }
  | .setMetrics payload =>
      { state with
        metrics := payload
        loading := { state.loading with
                      isLoading := false
                      error := none
                      lastUpdated := some now } }
  | .setSalesData payload => { state with salesData := payload }
  | .setUserAnalytics payload => { state with userAnalytics := payload }
  | .setPerformanceMetrics payload => { state with performanceMetrics := payload }
  | .setFilters payload => { state with filters := payload }
  | .setConfig payload =>
      { state with config := mergeConfig state.config payload }
  | .updateLastUpdated payload =>
      { state with loading := { state.loading with lastUpdated := some payload } }

/-- Dispatching a list of actions in order against the reducer. -/
def runActions (now : String) (s : DashboardState) (l : List DashboardAction) :
    DashboardState :=
  l.foldl (dashboardReducer now) s

/-- Embeds `handleError` from src/contexts/DashboardContext.tsx: normalizes any
thrown value into an `AppError`. -/
def handleError (now : String) (context : String) (e : JsError) : AppError :=
  { code := "DASHBOARD_ERROR"
    message := match e with
               | .errorObj m => m
               | .otherValue _ => "An unexpected error occurred"
    details := some (context, e)
    timestamp := now }

/-- The outcome of one awaited remote-fetch call: the `data` field of a
resolved `ApiResponse`, or the value the call threw/rejected with. -/
inductive FetchOutcome (α : Type) where
  | success (data : α)
  | failure (e : JsError)
  deriving Repr, DecidableEq

/-- The single dispatch `fetchMetrics` makes after its await settles:
`SET_METRICS` on resolution, `handleError`'s `SET_ERROR` on a throw. -/
def metricsDoneAct (now : String) (o : FetchOutcome (List MetricCard)) :
    DashboardAction :=
  match o with
  | .success d => .setMetrics d
  | .failure e => .setError (some (handleError now "fetchMetrics" e))

/-- The single dispatch `fetchSalesData` makes after its await settles. -/
def salesDoneAct (now : String) (o : FetchOutcome (List SalesData)) :
    DashboardAction :=
  match o with
  | .success d => .setSalesData d
  | .failure e => .setError (some (handleError now "fetchSalesData" e))

/-- The single dispatch `fetchUserAnalytics` makes after its await settles. -/
def userAnalyticsDoneAct (now : String) (o : FetchOutcome (List UserAnalytics)) :
    DashboardAction :=
  match o with
  | .success d => .setUserAnalytics d
  | .failure e => .setError (some (handleError now "fetchUserAnalytics" e))

/-- The single dispatch `fetchPerformanceMetrics` makes after its await
settles. -/
def performanceDoneAct (now : String) (o : FetchOutcome (List PerformanceMetrics)) :
    DashboardAction :=
  match o with
  | .success d => .setPerformanceMetrics d
  | .failure e => .setError (some (handleError now "fetchPerformanceMetrics" e))

/-- The dispatch trace of `fetchMetrics`: `SET_LOADING` is dispatched
synchronously before the await, then the completion dispatch. -/
def fetchMetricsActs (now : String) (o : FetchOutcome (List MetricCard)) :
    List DashboardAction :=
  [DashboardAction.setLoading "metrics" true, metricsDoneAct now o]

/-- The dispatch trace of `fetchSalesData`: no loading dispatch; only the
completion dispatch after the await. -/
def fetchSalesActs (now : String) (o : FetchOutcome (List SalesData)) :
    List DashboardAction :=
  [salesDoneAct now o]

/-- The dispatch trace of `fetchUserAnalytics`. -/
def fetchUserAnalyticsActs (now : String) (o : FetchOutcome (List UserAnalytics)) :
    List DashboardAction :=
  [userAnalyticsDoneAct now o]

/-- The dispatch trace of `fetchPerformanceMetrics`. -/
def fetchPerformanceActs (now : String) (o : FetchOutcome (List PerformanceMetrics)) :
    List DashboardAction :=
  [performanceDoneAct now o]

/-- Running `fetchMetrics` to completion. The second component is what
escapes to the caller: the source wraps the whole body in
`try ... catch (error) { handleError(error, ...) }`, so nothing ever
does (`none` = the returned promise resolves). -/
def fetchMetrics (now : String) (s : DashboardState)
    (o : FetchOutcome (List MetricCard)) : DashboardState × Option JsError :=
  (runActions now s (fetchMetricsActs now o), none)

/-- Running `fetchSalesData` to completion; same catch-all shape. -/
def fetchSalesData (now : String) (s : DashboardState)
    (o : FetchOutcome (List SalesData)) : DashboardState × Option JsError :=
  (runActions now s (fetchSalesActs now o), none)

/-- Running `fetchUserAnalytics` to completion; same catch-all shape. -/
def fetchUserAnalytics (now : String) (s : DashboardState)
    (o : FetchOutcome (List UserAnalytics)) : DashboardState × Option JsError :=
  (runActions now s (fetchUserAnalyticsActs now o), none)

/-- Running `fetchPerformanceMetrics` to completion; same catch-all shape. -/
def fetchPerformanceMetrics (now : String) (s : DashboardState)
    (o : FetchOutcome (List PerformanceMetrics)) : DashboardState × Option JsError :=
  (runActions now s (fetchPerformanceActs now o), none)

/-- The orchestrator's `refreshAllData` invokes the four fetches inside
`Promise.all`. Each
async body runs synchronously up to its first await, so `fetchMetrics`'
`SET_LOADING` dispatch always happens first; the four completion
dispatches then land in whatever order the awaited calls settle. These
are the four completion dispatches. -/
def refreshAllDones (now : String)
    (o1 : FetchOutcome (List MetricCard)) (o2 : FetchOutcome (List SalesData))
    (o3 : FetchOutcome (List UserAnalytics))
    (o4 : FetchOutcome (List PerformanceMetrics)) : List DashboardAction :=
  [metricsDoneAct now o1, salesDoneAct now o2,
   userAnalyticsDoneAct now o3, performanceDoneAct now o4]

/-- Running `refreshAllData` whose completion dispatches landed in the
order `completions`. None of the four component promises ever rejects,
so `Promise.all` resolves: the escape component is `none`. -/
def refreshAllRun (now : String) (s : DashboardState)
    (completions : List DashboardAction) : DashboardState × Option JsError :=
  (runActions now s (DashboardAction.setLoading "metrics" true :: completions), none)

/-- Embeds `updateFilters` from src/contexts/DashboardContext.tsx: dispatches
`SET_FILTERS` with the spread-merge of the current filters. -/
def updateFilters (now : String) (p : PartialFilterOptions)
    (s : DashboardState) : DashboardState :=
  dashboardReducer now s (.setFilters (mergeFilters s.filters p))

/-- Embeds `clearError` from src/contexts/DashboardContext.tsx. -/
def clearError (now : String) (s : DashboardState) : DashboardState :=
  dashboardReducer now s (.setError none)

/-- Embeds `updateConfig` from src/contexts/DashboardContext.tsx. -/
def updateDashboardConfig (now : String) (p : PartialDashboardConfig)
    (s : DashboardState) : DashboardState :=
  dashboardReducer now s (.setConfig p)

/-- Embeds `initialState` from src/contexts/DashboardContext.tsx, parameterized
by the two computed date strings of the initial filter range. -/
def initialState (thirtyDaysAgo today : String) : DashboardState :=
  { metrics := []
    salesData := []
    userAnalytics := []
    performanceMetrics := []
    loading := { isLoading := false, error := none, lastUpdated := none }
    filters := { dateRange := { rangeStart := thirtyDaysAgo, rangeEnd := today } }
    config := { refreshInterval := 300000, autoRefresh := true
                theme := "light", layout := "grid" }
    error := none }

/-! ## Remote fetch layer: `salesApi.getSalesData` (src/services/api.ts)

`getSalesData(filters?)` accepts a filters argument but builds its HTTP
request as a bare `apiClient.get('/posts')`: the filters never reach the
request. The embedding records the request a call would issue. -/

/-- The parameter object type of `salesApi.getSalesData`. In the source
the orchestrator passes its whole `FilterOptions` value here. -/
structure HttpRequest where
  path : String
  params : List (String × String)
  deriving Repr, DecidableEq

/-- The outgoing HTTP request built by `salesApi.getSalesData`: a GET of
`/posts` with no query parameters, whatever the `filters` argument holds. -/
def getSalesDataRequest (filters : Option FilterOptions) : HttpRequest :=
  match filters with
  | _ => { path := "/posts", params := [] }

/-- The request the orchestrator's `fetchSalesData` causes: it passes
`state.filters` to `api.sales.getSalesData`. -/
def fetchSalesRequest (s : DashboardState) : HttpRequest :=
  getSalesDataRequest (some s.filters)

/-! ## Auto-refresh effect (src/contexts/DashboardContext.tsx, lines 272-280)

React effect semantics: whenever a dependency changes, the previous
effect's cleanup runs (`clearInterval`), then the body runs and installs a
new interval only when `autoRefresh && refreshInterval > 0`. -/

/-- The timer side of the auto-refresh effect: the installed interval (if
any) with its cadence, and a count of `refreshAllData` invocations made by
timer callbacks. -/
structure AutoRefreshState where
  timer : Option Int
  refreshCount : Nat
  deriving Repr, DecidableEq

/-- One run of the auto-refresh `useEffect` after a dependency change:
cleanup clears the previously installed interval, then the body installs
a new one exactly when `autoRefresh` is on and the interval is positive. -/
def applyAutoRefreshEffect (cfg : DashboardConfig) (s : AutoRefreshState) :
    AutoRefreshState :=
  if cfg.autoRefresh = true ∧ cfg.refreshInterval > 0 then
    { s with timer := some cfg.refreshInterval }
  else
    { s with timer := none }

/-- A scheduled refresh moment elapsing: if an interval timer is
installed its callback fires `refreshAllData()`; with no timer installed
nothing happens at all. -/
def intervalElapses (s : AutoRefreshState) : AutoRefreshState :=
  match s.timer with
  | some _ => { s with refreshCount := s.refreshCount + 1 }
  | none => s

/-! ## Live-data simulator hook (src/hooks/useRealTimeData.ts)

`intervalRef`/`configRef` are refs mutated synchronously; `data.isLive`
is React state. Runtime interval timers are modelled as a list of timer
ids so that a failure to clear one would be visible as a leaked entry;
`ref` holds the id stored in `intervalRef.current`. -/

/-- Embeds `DataStreamConfig` from src/services/mockDataGenerator.ts. -/
structure DataStreamConfig where
  interval : Int
  volatility : ℚ
  trend : String
  deriving Repr, DecidableEq

/-- Embeds `Partial<DataStreamConfig>` as accepted by the hook's `updateConfig`. -/
structure PartialDataStreamConfig where
  interval : Option Int := none
  volatility : Option ℚ := none
  trend : Option String := none
  deriving Repr, DecidableEq

/-- The spread-merge `{ ...configRef.current, ...newConfig }`. -/
def mergeStreamConfig (c : DataStreamConfig) (p : PartialDataStreamConfig) :
    DataStreamConfig :=
  { interval := p.interval.getD c.interval
    volatility := p.volatility.getD c.volatility
    trend := p.trend.getD c.trend }

/-- The observable state of one `useRealTimeData` stream-hook instance.
`timers` are the live runtime interval timers (by id), `ref` is
`intervalRef.current`, `regenCount` counts `generateFreshData` runs, and
`pendingStart` records a `setTimeout(startStream, 100)` scheduled by
`updateConfig` that has not yet fired. -/
structure StreamState where
  isLive : Bool
  ref : Option Nat
  timers : List Nat
  nextId : Nat
  regenCount : Nat
  cfg : DataStreamConfig
  pendingStart : Bool
  deriving Repr, DecidableEq

/-- Embeds `startStream`: guarded by `if (intervalRef.current) return;`; then
sets `isLive`, regenerates once immediately, and installs a new interval
whose handle is stored in the ref. -/
def startStream (s : StreamState) : StreamState :=
  if s.ref.isSome then s
  else
    { s with
      isLive := true
      regenCount := s.regenCount + 1
      timers := s.timers ++ [s.nextId]
      ref := some s.nextId
      nextId := s.nextId + 1 }

/-- Embeds `stopStream`: clears the interval held in the ref (if any), nulls the
ref, and sets `isLive` to false. -/
def stopStream (s : StreamState) : StreamState :=
  match s.ref with
  | some id =>
      { s with timers := s.timers.erase id, ref := none, isLive := false }
  | none => { s with isLive := false }

/-- Embeds `toggleStream` as one invocation: the `data.isLive` value its closure
captured is the explicit `seenLive` argument. -/
def toggleStream (seenLive : Bool) (s : StreamState) : StreamState :=
  if seenLive then stopStream s else startStream s

/-- Two `toggleStream` invocations in immediate succession: both closures
observe the same rendered `data.isLive` snapshot, while the refs they
read are current. -/
def toggleStreamTwice (s : StreamState) : StreamState :=
  toggleStream s.isLive (toggleStream s.isLive s)

/-- The hook's `updateConfig`: merges into `configRef.current`
unconditionally; if the rendered `data.isLive` is true it stops the
stream and schedules `setTimeout(startStream, 100)`. -/
def updateStreamConfig (p : PartialDataStreamConfig) (s : StreamState) :
    StreamState :=
  let s1 := { s with cfg := mergeStreamConfig s.cfg p }
  if s.isLive then { stopStream s1 with pendingStart := true } else s1

/-- The hook state as first rendered: not live, no ref, no timers,
default config `{interval: 5000, volatility: 0.3, trend: 'stable'}`
merged with the caller's partial config. -/
def initialStreamState (p : PartialDataStreamConfig) : StreamState :=
  { isLive := false
    ref := none
    timers := []
    nextId := 0
    regenCount := 0
    cfg := mergeStreamConfig
      { interval := 5000, volatility := 3 / 10, trend := "stable" } p
    pendingStart := false }

/-- The consistency invariant the hook maintains between the rendered
`isLive` flag, the ref, and the set of live runtime timers: the only live
timer is the one the ref holds, and `isLive` mirrors the ref. -/
def StreamInv (s : StreamState) : Prop :=
  s.timers = s.ref.toList ∧ s.isLive = s.ref.isSome

/-! ## Connection-status simulator hook (bundled with
src/pages/EnhancedDashboard.tsx, the second `useRealTimeData`)

`connect()` sets `connecting` and schedules a handshake `setTimeout`
(1000-3000 ms) that sets `connected`; `disconnect()` sets `disconnected`
and clears only `intervalRef` — pending handshake timeouts are never
cancelled. `pendingHandshakes` counts scheduled, not-yet-fired handshake
timeouts. -/

/-- Embeds `'disconnected' | 'connecting' | 'connected'`. -/
inductive ConnectionStatus where
  | disconnected
  | connecting
  | connected
  deriving Repr, DecidableEq

/-- Observable state of the connection-status hook. -/
structure ConnState where
  isConnected : Bool
  status : ConnectionStatus
  ref : Option Nat
  pendingHandshakes : Nat
  deriving Repr, DecidableEq

/-- Events driving the connection-status hook: a `connect()` call, a
pending handshake timeout firing (the only time-delayed event), and a
`disconnect()` call. -/
inductive ConnEvent where
  | connectCall
  | handshakeFires
  | disconnectCall
  deriving Repr, DecidableEq

/-- One event step of the connection-status hook, straight from the
source: `connect` sets `connecting` and schedules the handshake;
a firing handshake sets `connected`; `disconnect` sets `disconnected`
and clears the update interval but not pending handshake timeouts. -/
def connStep (s : ConnState) : ConnEvent → ConnState
  | .connectCall =>
      { s with status := .connecting
               pendingHandshakes := s.pendingHandshakes + 1 }
  | .handshakeFires =>
      if s.pendingHandshakes > 0 then
        { s with isConnected := true
                 status := .connected
                 pendingHandshakes := s.pendingHandshakes - 1 }
      else s
  | .disconnectCall =>
      { s with isConnected := false, status := .disconnected, ref := none }

/-- The hook's initial state: disconnected, nothing pending. -/
def initialConnState : ConnState :=
  { isConnected := false, status := .disconnected, ref := none
    pendingHandshakes := 0 }

/-- The successive statuses observed while running a list of events. -/
def connStatusTrace (s : ConnState) (l : List ConnEvent) : List ConnectionStatus :=
  (l.scanl connStep s).map ConnState.status

/-- The transition set the specification allows for the connection
status: `disconnected → connecting` (enable), `connecting → connected`
(delayed handshake), and any state `→ disconnected` (disable). -/
def specAllowedTransition : ConnectionStatus → ConnectionStatus → Bool
  | .disconnected, .connecting => true
  | .connecting, .connected => true
  | _, .disconnected => true
  | _, _ => false

/-- Consecutive pairs of a list (for reading transitions off a trace). -/
def tracePairs : List ConnectionStatus → List (ConnectionStatus × ConnectionStatus)
  | a :: b :: rest => (a, b) :: tracePairs (b :: rest)
  | _ => []

/-! ## Mock generator: `generateRevenueData` (src/services/mockDataGenerator.ts)

The loop runs `i = months-1 .. 0` and builds
`new Date(curYear, curMonth - i, 1)`; JavaScript `Date` normalizes an
out-of-range month, so the point's date is the absolute month number
`curYear*12 + curMonth - i`. `Math.sin((month/12)*2π)` and
`Math.random()` are opaque parameters `sinv` (per calendar-month index)
and `rand` (per loop iteration), constrained only by their ranges. -/

/-- One generated revenue point. `absMonth` is the absolute month number
of the point's date (year*12 + month index); `y` is the
`Math.round`ed revenue (an integer by construction, as in the source). -/
structure RevenuePoint where
  absMonth : Int
  y : Int
  deriving Repr, DecidableEq

/-- The revenue value of the iteration with loop counter `i`:
`Math.round(baseRevenue * seasonalMultiplier * randomVariation * growthTrend)`
with `baseRevenue = 50000`,
`seasonalMultiplier = 1 + sin((month/12)·2π) · 0.3`,
`randomVariation = 0.8 + random() · 0.4`, and
`growthTrend = 1 + (months - i - 1) · 0.05`. -/
def revenueY (months : Nat) (i : Nat) (sinMonth : ℚ) (randVal : ℚ) : Int :=
  round ((50000 : ℚ) * (1 + sinMonth * (3 / 10))
    * ((8 / 10) + randVal * (4 / 10))
    * (1 + ((months : ℚ) - (i : ℚ) - 1) * (5 / 100)))

/-- Embeds `generateRevenueData(months)`. Iteration `j` of the embedding is the
source iteration with `i = months - 1 - j`; its date is the absolute
month `curYear*12 + curMonth - i`, and the calendar-month index fed to
the seasonal sine is that value mod 12. -/
def generateRevenueData (months : Nat) (curYear curMonth : Int)
    (sinv : Int → ℚ) (rand : Nat → ℚ) : List RevenuePoint :=
  (List.range months).map (fun j =>
    let i : Nat := months - 1 - j
    let absMonth : Int := curYear * 12 + curMonth - (i : Int)
    { absMonth := absMonth
      y := revenueY months i (sinv (absMonth % 12)) (rand j) })

/-- The range constraint `|Math.sin _| ≤ 1`. -/
def SinBounded (f : Int → ℚ) : Prop := ∀ m : Int, |f m| ≤ 1

/-- The range constraint `0 ≤ Math.random() < 1`. -/
def RandBounded (f : Nat → ℚ) : Prop := ∀ k : Nat, 0 ≤ f k ∧ f k < 1

/-! ## Statements of the audited claims, as claimed -/

/-- "first sets `isLoading=true`": the first dispatched action of the
operation is a `SET_LOADING` with payload `true`. -/
def SetsLoadingFirst (acts : List DashboardAction) : Prop :=
  ∃ k, acts.head? = some (.setLoading k true)

/-- The claim that every dataset kind's fetch first sets
`isLoading=true` and, on success, replaces the dataset and stamps
`lastUpdated` with the completion time. -/
def ClaimEveryFetchLoadsAndStamps : Prop :=
  ∀ (now : String) (s : DashboardState),
    (∀ d, SetsLoadingFirst (fetchMetricsActs now (.success d)) ∧
          (fetchMetrics now s (.success d)).1.metrics = d ∧
          (fetchMetrics now s (.success d)).1.loading.lastUpdated = some now) ∧
    (∀ d, SetsLoadingFirst (fetchSalesActs now (.success d)) ∧
          (fetchSalesData now s (.success d)).1.salesData = d ∧
          (fetchSalesData now s (.success d)).1.loading.lastUpdated = some now) ∧
    (∀ d, SetsLoadingFirst (fetchUserAnalyticsActs now (.success d)) ∧
          (fetchUserAnalytics now s (.success d)).1.userAnalytics = d ∧
          (fetchUserAnalytics now s (.success d)).1.loading.lastUpdated = some now) ∧
    (∀ d, SetsLoadingFirst (fetchPerformanceActs now (.success d)) ∧
          (fetchPerformanceMetrics now s (.success d)).1.performanceMetrics = d ∧
          (fetchPerformanceMetrics now s (.success d)).1.loading.lastUpdated = some now)

/-- The claim that a simulator `updateConfig` carrying a non-positive
interval is rejected, the previous valid configuration being retained. -/
def ClaimRejectsNonPositiveInterval : Prop :=
  ∀ (s : StreamState) (p : PartialDataStreamConfig) (v : Int),
    p.interval = some v → v ≤ 0 → (updateStreamConfig p s).cfg = s.cfg

/-- The claim that the connection status only ever transitions
`disconnected→connecting`, `connecting→connected`, or `→disconnected`:
every status change observed along any event trace from the initial
state is one of those. -/
def ClaimOnlySpecTransitions : Prop :=
  ∀ (l : List ConnEvent) (pr : ConnectionStatus × ConnectionStatus),
    pr ∈ tracePairs (connStatusTrace initialConnState l) → pr.1 ≠ pr.2 →
    specAllowedTransition pr.1 pr.2 = true

/-- What `refreshAllData` guarantees for a given completion order `l`:
the promise resolves, `isLoading` ends false, and every dataset reflects
exactly its own fetch's outcome (success replaces it, failure leaves the
previously stored value intact). -/
def RefreshAllOK (now : String) (s : DashboardState)
    (o1 : FetchOutcome (List MetricCard)) (o2 : FetchOutcome (List SalesData))
    (o3 : FetchOutcome (List UserAnalytics))
    (o4 : FetchOutcome (List PerformanceMetrics))
    (l : List DashboardAction) : Prop :=
  (refreshAllRun now s l).2 = none ∧
  (refreshAllRun now s l).1.loading.isLoading = false ∧
  (refreshAllRun now s l).1.metrics
    = (match o1 with | .success d => d | .failure _ => s.metrics) ∧
  (refreshAllRun now s l).1.salesData
    = (match o2 with | .success d => d | .failure _ => s.salesData) ∧
  (refreshAllRun now s l).1.userAnalytics
    = (match o3 with | .success d => d | .failure _ => s.userAnalytics) ∧
  (refreshAllRun now s l).1.performanceMetrics
    = (match o4 with | .success d => d | .failure _ => s.performanceMetrics)

/-- What the claim asserts of `generateRevenueData` at `months = 12`:
twelve points, dates strictly increasing month by month (absolute month
numbers encode the year wrap), every revenue value non-negative, and the
series ending at the current month. -/
def RevenueListOK (curYear curMonth : Int) (l : List RevenuePoint) : Prop :=
  l.length = 12 ∧
  List.Chain' (fun p q => p.absMonth < q.absMonth) l ∧
  (∀ p ∈ l, 0 ≤ p.y) ∧
  l[11]?.map RevenuePoint.absMonth = some (curYear * 12 + curMonth)

/-! ## Concrete instances used by witnesses and counterexamples -/

/-- Event trace exhibiting the un-cancelled handshake: enable, disable
while connecting, then the pending handshake timeout fires. -/
def c6Trace : List ConnEvent := [.connectCall, .disconnectCall, .handshakeFires]

/-- A stream-hook state with an active stream, for the C10 witness. -/
def c10State : StreamState :=
  { isLive := true, ref := some 0, timers := [0], nextId := 1, regenCount := 4
    cfg := { interval := 5000, volatility := 3 / 10, trend := "stable" }
    pendingStart := false }

/-- A freshly mounted stream-hook state, for the C7 witness. -/
def c7State : StreamState := initialStreamState {}

/-- A freshly mounted stream-hook state, for the C4 witness. -/
def c4State : StreamState := initialStreamState {}

/-- The partial configuration carrying a non-positive interval, for the
C4 witness. -/
def c4Partial : PartialDataStreamConfig := { interval := some (-100) }

/-- Orchestrator state after `updateFilters({category: "Electronics"})`
from the initial state, for the C5 evaluation. -/
def c5State : DashboardState :=
  updateFilters "t1" { category := some (some "Electronics") }
    (initialState "2025-01-01" "2025-01-31")

/-- A dashboard config with auto-refresh disabled, for the C8 witness. -/
def c8Config : DashboardConfig :=
  { refreshInterval := 300000, autoRefresh := false
    theme := "light", layout := "grid" }

/-- A timer state with an interval still installed, for the C8 witness. -/
def c8Timers : AutoRefreshState := { timer := some 300000, refreshCount := 5 }

/-- Concrete fetch outcomes for the C3 witness: three failures and one
success. -/
def c3o1 : FetchOutcome (List MetricCard) := .failure (.errorObj "network down")

/-- C3 witness outcome for the sales fetch. -/
def c3o2 : FetchOutcome (List SalesData) :=
  .success [{ id := "1", date := "2025-01-05", amount := 4200
              product := "Product 1", category := "Electronics", region := "North" }]

/-- C3 witness outcome for the user-analytics fetch. -/
def c3o3 : FetchOutcome (List UserAnalytics) := .failure (.otherValue "string throw")

/-- C3 witness outcome for the performance fetch. -/
def c3o4 : FetchOutcome (List PerformanceMetrics) := .failure (.errorObj "")

/-- A completion order for the C3 witness in which the sales fetch
settles before the metrics fetch. -/
def c3List : List DashboardAction :=
  [salesDoneAct "t" c3o2, metricsDoneAct "t" c3o1,
   userAnalyticsDoneAct "t" c3o3, performanceDoneAct "t" c3o4]

/-- The orchestrator state the C3 witness starts from. -/
def c3State : DashboardState := initialState "2025-01-01" "2025-01-31"

/-- Stand-in for `Math.sin` in the C9 witness. -/
def sinZero : Int → ℚ := fun _ => 0

/-- Stand-in for `Math.random` in the C9 witness. -/
def randHalf : Nat → ℚ := fun _ => 1 / 2

/-! ## Theorems -/

/-- C10: calling `startStream` while a stream is already active (the
interval ref is non-null) is a complete no-op — the guard
`if (intervalRef.current) return;` returns before any timer creation,
regeneration, or state update. -/
theorem claim_C10_startStream_noop (s : StreamState) (h : s.ref.isSome = true) :
    startStream s = s := by
  simp [startStream, h]

/-- C10 witness: the no-op on a concrete active stream state. -/
theorem claim_C10_witness :
    c10State.ref.isSome = true ∧ startStream c10State = c10State :=
  ⟨rfl, claim_C10_startStream_noop c10State rfl⟩

/-- C4 counterexample: the hook's `updateConfig` performs no validation;
merging `{interval: -100}` into the initial configuration yields a
configuration whose interval is `-100`, not the retained previous one. -/
theorem claim_C4_counterexample : ¬ ClaimRejectsNonPositiveInterval := by
  intro h
  have h1 := h (initialStreamState {}) { interval := some (-100) } (-100) rfl
    (by norm_num)
  have h2 := congrArg DataStreamConfig.interval h1
  norm_num [updateStreamConfig, mergeStreamConfig, initialStreamState] at h2

/-- C4 amended: `updateConfig` merges the partial configuration into the
current one unconditionally — a non-positive interval is adopted rather
than rejected. -/
theorem claim_C4_amended (s : StreamState) (p : PartialDataStreamConfig)
    (v : Int) (h : p.interval = some v) :
    (updateStreamConfig p s).cfg = mergeStreamConfig s.cfg p ∧
    (updateStreamConfig p s).cfg.interval = v := by
  have hcfg : (updateStreamConfig p s).cfg = mergeStreamConfig s.cfg p := by
    unfold updateStreamConfig
    by_cases hl : s.isLive
    · simp only [hl, if_true]
      unfold stopStream
      cases s.ref <;> simp
    · simp [hl]
  refine ⟨hcfg, ?_⟩
  rw [hcfg]
  simp [mergeStreamConfig, h]

/-- C4 witness: the amended behavior at the concrete invalid input. -/
theorem claim_C4_witness :
    c4Partial.interval = some (-100) ∧
    ((updateStreamConfig c4Partial c4State).cfg
        = mergeStreamConfig c4State.cfg c4Partial ∧
     (updateStreamConfig c4Partial c4State).cfg.interval = -100) :=
  ⟨rfl, claim_C4_amended c4State c4Partial (-100) rfl⟩

/-- C5 evaluation at the failing input: after
`updateFilters({category: "Electronics"})` the orchestrator's filters do
carry the category, yet the outgoing sales request built by
`salesApi.getSalesData` is a bare GET of `/posts` whose parameter list is
empty — the category never reaches the request. -/
theorem claim_C5_code_eval :
    c5State.filters.category = some "Electronics" ∧
    fetchSalesRequest c5State = { path := "/posts", params := [] } ∧
    ∀ v, ("category", v) ∉ (fetchSalesRequest c5State).params := by
  refine ⟨rfl, rfl, ?_⟩
  intro v
  simp [fetchSalesRequest, getSalesDataRequest]

/-- C8: once `autoRefresh` is false, the effect run removes the pending
interval timer; a formerly scheduled interval elapsing then mutates
nothing, and no further `refreshAllData` invocation ever happens. -/
theorem claim_C8_disable_cancels (cfg : DashboardConfig) (s : AutoRefreshState)
    (n : Nat) (h : cfg.autoRefresh = false) :
    (applyAutoRefreshEffect cfg s).timer = none ∧
    intervalElapses (applyAutoRefreshEffect cfg s) = applyAutoRefreshEffect cfg s ∧
    (intervalElapses^[n] (applyAutoRefreshEffect cfg s)).refreshCount
      = s.refreshCount := by
  have ht : (applyAutoRefreshEffect cfg s).timer = none := by
    simp [applyAutoRefreshEffect, h]
  have hfix : intervalElapses (applyAutoRefreshEffect cfg s)
      = applyAutoRefreshEffect cfg s := by
    unfold intervalElapses
    rw [ht]
  have hcount : (applyAutoRefreshEffect cfg s).refreshCount = s.refreshCount := by
    simp [applyAutoRefreshEffect, h]
  refine ⟨ht, hfix, ?_⟩
  rw [Function.iterate_fixed hfix, hcount]

/-- C8 witness: the cancellation at a concrete disabled config, with a
timer previously installed and three elapsed intervals. -/
theorem claim_C8_witness :
    c8Config.autoRefresh = false ∧
    ((applyAutoRefreshEffect c8Config c8Timers).timer = none ∧
     intervalElapses (applyAutoRefreshEffect c8Config c8Timers)
        = applyAutoRefreshEffect c8Config c8Timers ∧
     (intervalElapses^[3] (applyAutoRefreshEffect c8Config c8Timers)).refreshCount
        = c8Timers.refreshCount) :=
  ⟨rfl, claim_C8_disable_cancels c8Config c8Timers 3 rfl⟩

/-- C1 counterexample: the claim fails for the Sales kind —
`fetchSalesData`'s dispatch trace never contains a `SET_LOADING`, so its
first action is not one. -/
theorem claim_C1_counterexample : ¬ ClaimEveryFetchLoadsAndStamps := by
  intro h
  obtain ⟨-, hsales, -, -⟩ := h "t" (initialState "a" "b")
  obtain ⟨⟨k, hk⟩, -, -⟩ := hsales []
  simp [fetchSalesActs, salesDoneAct] at hk

/-- C1 amended: only `fetchMetrics` first sets `isLoading=true` and, on
success, replaces the metrics, stamps `lastUpdated` and resets
`isLoading` to false; the Sales, UserAnalytics and Performance fetches
dispatch exactly one data-replacement action on success and leave the
whole loading state (including `lastUpdated`) untouched. -/
theorem claim_C1_amended : ∀ (now : String) (s : DashboardState),
    (∀ d, SetsLoadingFirst (fetchMetricsActs now (.success d)) ∧
          (fetchMetrics now s (.success d)).1.metrics = d ∧
          (fetchMetrics now s (.success d)).1.loading.lastUpdated = some now ∧
          (fetchMetrics now s (.success d)).1.loading.isLoading = false) ∧
    (∀ d, fetchSalesActs now (.success d) = [.setSalesData d] ∧
          (fetchSalesData now s (.success d)).1.salesData = d ∧
          (fetchSalesData now s (.success d)).1.loading = s.loading) ∧
    (∀ d, fetchUserAnalyticsActs now (.success d) = [.setUserAnalytics d] ∧
          (fetchUserAnalytics now s (.success d)).1.userAnalytics = d ∧
          (fetchUserAnalytics now s (.success d)).1.loading = s.loading) ∧
    (∀ d, fetchPerformanceActs now (.success d) = [.setPerformanceMetrics d] ∧
          (fetchPerformanceMetrics now s (.success d)).1.performanceMetrics = d ∧
          (fetchPerformanceMetrics now s (.success d)).1.loading = s.loading) := by
  intro now s
  exact ⟨fun d => ⟨⟨"metrics", rfl⟩, rfl, rfl, rfl⟩,
         fun d => ⟨rfl, rfl, rfl⟩,
         fun d => ⟨rfl, rfl, rfl⟩,
         fun d => ⟨rfl, rfl, rfl⟩⟩

/-- C2: no fetch operation ever lets anything escape to its caller (the
`catch` is total), and any thrown value is normalized by `handleError`
into an `AppError` populated in all four fields and stored with
`isLoading` reset to false. -/
theorem claim_C2_never_throws : ∀ (now : String) (s : DashboardState) (e : JsError),
    (∀ o, (fetchMetrics now s o).2 = none) ∧
    (∀ o, (fetchSalesData now s o).2 = none) ∧
    (∀ o, (fetchUserAnalytics now s o).2 = none) ∧
    (∀ o, (fetchPerformanceMetrics now s o).2 = none) ∧
    ((fetchMetrics now s (.failure e)).1.error =
        some { code := "DASHBOARD_ERROR"
               message := match e with
                          | .errorObj m => m
                          | .otherValue _ => "An unexpected error occurred"
               details := some ("fetchMetrics", e), timestamp := now } ∧
     (fetchMetrics now s (.failure e)).1.loading.isLoading = false) ∧
    ((fetchSalesData now s (.failure e)).1.error =
        some { code := "DASHBOARD_ERROR"
               message := match e with
                          | .errorObj m => m
                          | .otherValue _ => "An unexpected error occurred"
               details := some ("fetchSalesData", e), timestamp := now } ∧
     (fetchSalesData now s (.failure e)).1.loading.isLoading = false) ∧
    ((fetchUserAnalytics now s (.failure e)).1.error =
        some { code := "DASHBOARD_ERROR"
               message := match e with
                          | .errorObj m => m
                          | .otherValue _ => "An unexpected error occurred"
               details := some ("fetchUserAnalytics", e), timestamp := now } ∧
     (fetchUserAnalytics now s (.failure e)).1.loading.isLoading = false) ∧
    ((fetchPerformanceMetrics now s (.failure e)).1.error =
        some { code := "DASHBOARD_ERROR"
               message := match e with
                          | .errorObj m => m
                          | .otherValue _ => "An unexpected error occurred"
               details := some ("fetchPerformanceMetrics", e), timestamp := now } ∧
     (fetchPerformanceMetrics now s (.failure e)).1.loading.isLoading = false) := by
  intro now s e
  refine ⟨fun o => rfl, fun o => rfl, fun o => rfl, fun o => rfl,
    ⟨rfl, rfl⟩, ⟨rfl, rfl⟩, ⟨rfl, rfl⟩, ⟨rfl, rfl⟩⟩

/-- C6 counterexample: the handshake `setTimeout` scheduled by `connect`
is never cancelled by `disconnect`, so the trace
enable → disconnect-while-connecting → handshake-fires drives the status
`disconnected → connected`, a transition outside the claimed set. -/
theorem claim_C6_counterexample : ¬ ClaimOnlySpecTransitions := by
  intro h
  have h1 := h c6Trace (.disconnected, .connected) (by decide) (by decide)
  exact absurd h1 (by decide)

/-- C6 amended: `connect` always moves the status to `connecting` and
`disconnect` to `disconnected`, both immediately; a handshake timeout
firing moves it to `connected` when one is pending and changes nothing
otherwise — but `disconnect` leaves pending handshake timeouts in place,
which is what permits the delayed `disconnected → connected` step. -/
theorem claim_C6_amended : ∀ s : ConnState,
    (connStep s .connectCall).status = .connecting ∧
    (connStep s .disconnectCall).status = .disconnected ∧
    (connStep s .disconnectCall).pendingHandshakes = s.pendingHandshakes ∧
    (connStep s .handshakeFires).status
      = (if 0 < s.pendingHandshakes then .connected else s.status) ∧
    (connStep s .handshakeFires).isConnected
      = (if 0 < s.pendingHandshakes then true else s.isConnected) := by
  intro s
  refine ⟨rfl, rfl, rfl, ?_, ?_⟩ <;>
    · by_cases h : 0 < s.pendingHandshakes <;> simp [connStep, h]

/-- C7: with the hook's ref/state consistency intact, two immediate
`toggleStream` calls (both closures reading the same rendered `isLive`
snapshot) flip the live state exactly once, and at most one interval
timer exists before, between, and after the calls. -/
theorem claim_C7_toggle_twice (s : StreamState) (h : StreamInv s) :
    (toggleStreamTwice s).isLive = !s.isLive ∧
    (toggleStream s.isLive s).isLive = !s.isLive ∧
    s.timers.length ≤ 1 ∧
    (toggleStream s.isLive s).timers.length ≤ 1 ∧
    (toggleStreamTwice s).timers.length ≤ 1 ∧
    (toggleStreamTwice s).regenCount ≤ s.regenCount + 1 := by
  obtain ⟨ht, hl⟩ := h
  cases hb : s.isLive with
  | true =>
      have hr : s.ref.isSome = true := by rw [← hl]; exact hb
      obtain ⟨id, hid⟩ := Option.isSome_iff_exists.mp hr
      rw [hid] at ht
      simp [toggleStreamTwice, toggleStream, hb, stopStream, hid, ht]
  | false =>
      have hr : s.ref.isSome = false := by rw [← hl]; exact hb
      have hrn : s.ref = none := by
        cases hc : s.ref
        · rfl
        · rw [hc] at hr; simp at hr
      rw [hrn] at ht
      simp [toggleStreamTwice, toggleStream, hb, startStream, hrn, ht]

/-- C7 witness: the double toggle on the freshly mounted hook state. -/
theorem claim_C7_witness :
    StreamInv c7State ∧
    ((toggleStreamTwice c7State).isLive = !c7State.isLive ∧
     (toggleStream c7State.isLive c7State).isLive = !c7State.isLive ∧
     c7State.timers.length ≤ 1 ∧
     (toggleStream c7State.isLive c7State).timers.length ≤ 1 ∧
     (toggleStreamTwice c7State).timers.length ≤ 1 ∧
     (toggleStreamTwice c7State).regenCount ≤ c7State.regenCount + 1) :=
  ⟨⟨rfl, rfl⟩, claim_C7_toggle_twice c7State ⟨rfl, rfl⟩⟩

/-- Splitting a dispatch run across an append. -/
theorem runActions_append (now : String) (s : DashboardState)
    (l₁ l₂ : List DashboardAction) :
    runActions now s (l₁ ++ l₂) = runActions now (runActions now s l₁) l₂ :=
  List.foldl_append _ _ _ _

/-- A projection untouched by every dispatched action is untouched by
the whole run. -/
theorem runActions_congr_proj {α : Type} (now : String)
    (proj : DashboardState → α) :
    ∀ (l : List DashboardAction) (s : DashboardState),
      (∀ a ∈ l, ∀ s', proj (dashboardReducer now s' a) = proj s') →
      proj (runActions now s l) = proj s := by
  intro l
  induction l with
  | nil => intro s _; rfl
  | cons a l ih =>
      intro s h
      have hstep : runActions now s (a :: l)
          = runActions now (dashboardReducer now s a) l := rfl
      rw [hstep, ih _ fun b hb => h b (List.mem_cons_of_mem a hb),
        h a (List.mem_cons_self a l)]

/-- If the projection already equals `v` and every dispatched action
either leaves it unchanged or (re)writes exactly `v`, the run ends at
`v`. -/
theorem runActions_stabilize {α : Type} (now : String)
    (proj : DashboardState → α) (v : α) :
    ∀ (l : List DashboardAction) (s : DashboardState),
      proj s = v →
      (∀ a ∈ l, ∀ s', proj (dashboardReducer now s' a) = proj s' ∨
                      proj (dashboardReducer now s' a) = v) →
      proj (runActions now s l) = v := by
  intro l
  induction l with
  | nil => intro s hv _; exact hv
  | cons a l ih =>
      intro s hv h
      have hstep : runActions now s (a :: l)
          = runActions now (dashboardReducer now s a) l := rfl
      rw [hstep]
      refine ih _ ?_ fun b hb => h b (List.mem_cons_of_mem a hb)
      rcases h a (List.mem_cons_self a l) s with h1 | h1
      · rw [h1, hv]
      · exact h1
/-- Running up to an action that writes `v`, then actions that preserve
or rewrite `v`, ends at `v`. -/
theorem runActions_split_stabilize {α : Type} (now : String)
    (proj : DashboardState → α) (v : α) (l₁ l₂ : List DashboardAction)
    (x : DashboardAction)
    (hx : ∀ s', proj (dashboardReducer now s' x) = v)
    (h₂ : ∀ a ∈ l₂, ∀ s', proj (dashboardReducer now s' a) = proj s' ∨
                          proj (dashboardReducer now s' a) = v) :
    ∀ s : DashboardState, proj (runActions now s (l₁ ++ x :: l₂)) = v := by
  intro s
  rw [runActions_append]
  have hstep : runActions now (runActions now s l₁) (x :: l₂)
      = runActions now (dashboardReducer now (runActions now s l₁) x) l₂ := rfl
  rw [hstep]
  exact runActions_stabilize now proj v l₂ _ (hx _) h₂

/-- Every member of the completion-dispatch list is one of the four
fetches' completion dispatches. -/
theorem mem_refreshAllDones {now : String}
    {o1 : FetchOutcome (List MetricCard)} {o2 : FetchOutcome (List SalesData)}
    {o3 : FetchOutcome (List UserAnalytics)}
    {o4 : FetchOutcome (List PerformanceMetrics)} {a : DashboardAction}
    (ha : a ∈ refreshAllDones now o1 o2 o3 o4) :
    a = metricsDoneAct now o1 ∨ a = salesDoneAct now o2 ∨
    a = userAnalyticsDoneAct now o3 ∨ a = performanceDoneAct now o4 := by
  simpa [refreshAllDones] using ha

/-- C3: for every outcome of the four fetches and every order in which
their completion dispatches land, `refreshAllData` resolves, leaves
`isLoading` false, and gives each dataset exactly its own fetch's
result — a failed fetch neither cancels another fetch nor corrupts
another dataset's previously stored data. -/
theorem claim_C3_refreshAll (now : String) (s : DashboardState)
    (o1 : FetchOutcome (List MetricCard)) (o2 : FetchOutcome (List SalesData))
    (o3 : FetchOutcome (List UserAnalytics))
    (o4 : FetchOutcome (List PerformanceMetrics))
    (l : List DashboardAction)
    (h : l.Perm (refreshAllDones now o1 o2 o3 o4)) :
    RefreshAllOK now s o1 o2 o3 o4 l := by
  have hsub : ∀ a ∈ l,
      a = metricsDoneAct now o1 ∨ a = salesDoneAct now o2 ∨
      a = userAnalyticsDoneAct now o3 ∨ a = performanceDoneAct now o4 :=
    fun a ha => mem_refreshAllDones (h.subset ha)
  unfold RefreshAllOK
  refine ⟨rfl, ?_, ?_, ?_, ?_, ?_⟩
  · -- isLoading ends false: split at the metrics completion dispatch
    have hm : metricsDoneAct now o1 ∈ l :=
      h.mem_iff.mpr (by simp [refreshAllDones])
    obtain ⟨l₁, l₂, hl⟩ := List.append_of_mem hm
    have h₂ : ∀ a ∈ l₂, ∀ s',
        (dashboardReducer now s' a).loading.isLoading = s'.loading.isLoading ∨
        (dashboardReducer now s' a).loading.isLoading = false := by
      intro a ha s'
      have hal : a ∈ l := by rw [hl]; simp [ha]
      rcases hsub a hal with rfl | rfl | rfl | rfl
      · cases o1 <;> simp [metricsDoneAct, dashboardReducer]
      · cases o2 <;> simp [salesDoneAct, dashboardReducer]
      · cases o3 <;> simp [userAnalyticsDoneAct, dashboardReducer]
      · cases o4 <;> simp [performanceDoneAct, dashboardReducer]
    have hx : ∀ s', (dashboardReducer now s' (metricsDoneAct now o1)).loading.isLoading
        = false := by
      intro s'; cases o1 <;> simp [metricsDoneAct, dashboardReducer]
    have hres := runActions_split_stabilize now (fun st => st.loading.isLoading)
      false l₁ l₂ (metricsDoneAct now o1) hx h₂
      (dashboardReducer now s (DashboardAction.setLoading "metrics" true))
    rw [hl]
    exact hres
  · -- metrics reflects o1
    cases o1 with
    | success d =>
        have hm : DashboardAction.setMetrics d ∈ l :=
          h.mem_iff.mpr (by simp [refreshAllDones, metricsDoneAct])
        obtain ⟨l₁, l₂, hl⟩ := List.append_of_mem hm
        have h₂ : ∀ a ∈ l₂, ∀ s',
            (dashboardReducer now s' a).metrics = s'.metrics ∨
            (dashboardReducer now s' a).metrics = d := by
          intro a ha s'
          have hal : a ∈ l := by rw [hl]; simp [ha]
          rcases hsub a hal with rfl | rfl | rfl | rfl
          · simp [metricsDoneAct, dashboardReducer]
          · cases o2 <;> simp [salesDoneAct, dashboardReducer]
          · cases o3 <;> simp [userAnalyticsDoneAct, dashboardReducer]
          · cases o4 <;> simp [performanceDoneAct, dashboardReducer]
        have hres := runActions_split_stabilize now (fun st => st.metrics) d
          l₁ l₂ (DashboardAction.setMetrics d) (fun s' => rfl) h₂
          (dashboardReducer now s (DashboardAction.setLoading "metrics" true))
        rw [hl]
        exact hres
    | failure e =>
        have hpres : ∀ a ∈ l, ∀ s',
            (dashboardReducer now s' a).metrics = s'.metrics := by
          intro a ha s'
          rcases hsub a ha with rfl | rfl | rfl | rfl
          · simp [metricsDoneAct, dashboardReducer]
          · cases o2 <;> simp [salesDoneAct, dashboardReducer]
          · cases o3 <;> simp [userAnalyticsDoneAct, dashboardReducer]
          · cases o4 <;> simp [performanceDoneAct, dashboardReducer]
        exact runActions_congr_proj now (fun st => st.metrics) l _ hpres
  · -- salesData reflects o2
    cases o2 with
    | success d =>
        have hm : DashboardAction.setSalesData d ∈ l :=
          h.mem_iff.mpr (by simp [refreshAllDones, salesDoneAct])
        obtain ⟨l₁, l₂, hl⟩ := List.append_of_mem hm
        have h₂ : ∀ a ∈ l₂, ∀ s',
            (dashboardReducer now s' a).salesData = s'.salesData ∨
            (dashboardReducer now s' a).salesData = d := by
          intro a ha s'
          have hal : a ∈ l := by rw [hl]; simp [ha]
          rcases hsub a hal with rfl | rfl | rfl | rfl
          · cases o1 <;> simp [metricsDoneAct, dashboardReducer]
          · simp [salesDoneAct, dashboardReducer]
          · cases o3 <;> simp [userAnalyticsDoneAct, dashboardReducer]
          · cases o4 <;> simp [performanceDoneAct, dashboardReducer]
        have hres := runActions_split_stabilize now (fun st => st.salesData) d
          l₁ l₂ (DashboardAction.setSalesData d) (fun s' => rfl) h₂
          (dashboardReducer now s (DashboardAction.setLoading "metrics" true))
        rw [hl]
        exact hres
    | failure e =>
        have hpres : ∀ a ∈ l, ∀ s',
            (dashboardReducer now s' a).salesData = s'.salesData := by
          intro a ha s'
          rcases hsub a ha with rfl | rfl | rfl | rfl
          · cases o1 <;> simp [metricsDoneAct, dashboardReducer]
          · simp [salesDoneAct, dashboardReducer]
          · cases o3 <;> simp [userAnalyticsDoneAct, dashboardReducer]
          · cases o4 <;> simp [performanceDoneAct, dashboardReducer]
        exact runActions_congr_proj now (fun st => st.salesData) l _ hpres
  · -- userAnalytics reflects o3
    cases o3 with
    | success d =>
        have hm : DashboardAction.setUserAnalytics d ∈ l :=
          h.mem_iff.mpr (by simp [refreshAllDones, userAnalyticsDoneAct])
        obtain ⟨l₁, l₂, hl⟩ := List.append_of_mem hm
        have h₂ : ∀ a ∈ l₂, ∀ s',
            (dashboardReducer now s' a).userAnalytics = s'.userAnalytics ∨
            (dashboardReducer now s' a).userAnalytics = d := by
          intro a ha s'
          have hal : a ∈ l := by rw [hl]; simp [ha]
          rcases hsub a hal with rfl | rfl | rfl | rfl
          · cases o1 <;> simp [metricsDoneAct, dashboardReducer]
          · cases o2 <;> simp [salesDoneAct, dashboardReducer]
          · simp [userAnalyticsDoneAct, dashboardReducer]
          · cases o4 <;> simp [performanceDoneAct, dashboardReducer]
        have hres := runActions_split_stabilize now (fun st => st.userAnalytics) d
          l₁ l₂ (DashboardAction.setUserAnalytics d) (fun s' => rfl) h₂
          (dashboardReducer now s (DashboardAction.setLoading "metrics" true))
        rw [hl]
        exact hres
    | failure e =>
        have hpres : ∀ a ∈ l, ∀ s',
            (dashboardReducer now s' a).userAnalytics = s'.userAnalytics := by
          intro a ha s'
          rcases hsub a ha with rfl | rfl | rfl | rfl
          · cases o1 <;> simp [metricsDoneAct, dashboardReducer]
          · cases o2 <;> simp [salesDoneAct, dashboardReducer]
          · simp [userAnalyticsDoneAct, dashboardReducer]
          · cases o4 <;> simp [performanceDoneAct, dashboardReducer]
        exact runActions_congr_proj now (fun st => st.userAnalytics) l _ hpres
  · -- performanceMetrics reflects o4
    cases o4 with
    | success d =>
        have hm : DashboardAction.setPerformanceMetrics d ∈ l :=
          h.mem_iff.mpr (by simp [refreshAllDones, performanceDoneAct])
        obtain ⟨l₁, l₂, hl⟩ := List.append_of_mem hm
        have h₂ : ∀ a ∈ l₂, ∀ s',
            (dashboardReducer now s' a).performanceMetrics = s'.performanceMetrics ∨
            (dashboardReducer now s' a).performanceMetrics = d := by
          intro a ha s'
          have hal : a ∈ l := by rw [hl]; simp [ha]
          rcases hsub a hal with rfl | rfl | rfl | rfl
          · cases o1 <;> simp [metricsDoneAct, dashboardReducer]
          · cases o2 <;> simp [salesDoneAct, dashboardReducer]
          · cases o3 <;> simp [userAnalyticsDoneAct, dashboardReducer]
          · simp [performanceDoneAct, dashboardReducer]
        have hres := runActions_split_stabilize now
          (fun st => st.performanceMetrics) d
          l₁ l₂ (DashboardAction.setPerformanceMetrics d) (fun s' => rfl) h₂
          (dashboardReducer now s (DashboardAction.setLoading "metrics" true))
        rw [hl]
        exact hres
    | failure e =>
        have hpres : ∀ a ∈ l, ∀ s',
            (dashboardReducer now s' a).performanceMetrics
              = s'.performanceMetrics := by
          intro a ha s'
          rcases hsub a ha with rfl | rfl | rfl | rfl
          · cases o1 <;> simp [metricsDoneAct, dashboardReducer]
          · cases o2 <;> simp [salesDoneAct, dashboardReducer]
          · cases o3 <;> simp [userAnalyticsDoneAct, dashboardReducer]
          · simp [performanceDoneAct, dashboardReducer]
        exact runActions_congr_proj now (fun st => st.performanceMetrics) l _ hpres

/-- C3 witness: with the sales fetch succeeding and the three others
failing, and its completion landing before the metrics completion. -/
theorem claim_C3_witness :
    c3List.Perm (refreshAllDones "t" c3o1 c3o2 c3o3 c3o4) ∧
    RefreshAllOK "t" c3State c3o1 c3o2 c3o3 c3o4 c3List := by
  have hperm : c3List.Perm (refreshAllDones "t" c3o1 c3o2 c3o3 c3o4) := by
    unfold c3List refreshAllDones
    exact List.Perm.swap _ _ _
  exact ⟨hperm, claim_C3_refreshAll "t" c3State c3o1 c3o2 c3o3 c3o4 c3List hperm⟩

/-- The revenue formula rounds a product of positive factors, so it
never produces a negative value. -/
theorem revenueY_nonneg (months i : Nat) (sq rq : ℚ)
    (hs : |sq| ≤ 1) (hr0 : 0 ≤ rq) (hi : (i : ℚ) ≤ (months : ℚ) - 1) :
    0 ≤ revenueY months i sq rq := by
  unfold revenueY
  rw [round_eq, Int.floor_nonneg]
  have h1 : -1 ≤ sq := (abs_le.mp hs).1
  have hA : (0 : ℚ) ≤ 1 + sq * (3 / 10) := by linarith
  have hB : (0 : ℚ) ≤ 8 / 10 + rq * (4 / 10) := by linarith
  have hG : (0 : ℚ) ≤ 1 + ((months : ℚ) - (i : ℚ) - 1) * (5 / 100) := by
    have hg0 : (0 : ℚ) ≤ (months : ℚ) - (i : ℚ) - 1 := by linarith
    linarith
  have hx : (0 : ℚ) ≤ (50000 : ℚ) * (1 + sq * (3 / 10))
      * ((8 / 10) + rq * (4 / 10))
      * (1 + ((months : ℚ) - (i : ℚ) - 1) * (5 / 100)) :=
    mul_nonneg (mul_nonneg (mul_nonneg (by norm_num) hA) hB) hG
  linarith

/-- C9: for `months = 12` and any values the opaque `Math.sin` /
`Math.random` calls can take, the revenue series has exactly 12 points,
their dates strictly increase month by month across year boundaries, the
last point is the current month, and every `y` is a non-negative
integer (`y` is integral by construction via `Math.round`). -/
theorem claim_C9_revenue (curYear curMonth : Int) (sinv : Int → ℚ)
    (rand : Nat → ℚ) (hs : SinBounded sinv) (hr : RandBounded rand) :
    RevenueListOK curYear curMonth
      (generateRevenueData 12 curYear curMonth sinv rand) := by
  have hrange : List.range 12 = [0, 1, 2, 3, 4, 5, 6, 7, 8, 9, 10, 11] := rfl
  unfold RevenueListOK
  refine ⟨?_, ?_, ?_, ?_⟩
  · simp [generateRevenueData]
  · unfold generateRevenueData
    rw [hrange]
    simp only [List.map_cons, List.map_nil, List.chain'_cons,
      List.chain'_singleton, and_true]
    norm_num
  · intro p hp
    unfold generateRevenueData at hp
    rw [List.mem_map] at hp
    obtain ⟨j, hj, rfl⟩ := hp
    rw [List.mem_range] at hj
    dsimp only
    apply revenueY_nonneg
    · exact hs _
    · exact (hr j).1
    · have h11 : 12 - 1 - j ≤ 11 := by omega
      have hle : ((12 - 1 - j : Nat) : ℚ) ≤ (11 : ℚ) := by exact_mod_cast h11
      have h12 : ((12 : ℕ) : ℚ) = 12 := by norm_num
      rw [h12]
      linarith
  · unfold generateRevenueData
    rw [hrange]
    simp only [List.map_cons, List.map_nil]
    norm_num

/-- C9 witness: the property at concrete date 2025-10 with the sine
taken as 0 and the random stream as 1/2. -/
theorem claim_C9_witness :
    SinBounded sinZero ∧ RandBounded randHalf ∧
    RevenueListOK 2025 9 (generateRevenueData 12 2025 9 sinZero randHalf) := by
  have h1 : SinBounded sinZero := by
    intro m
    norm_num [sinZero]
  have h2 : RandBounded randHalf := by
    intro k
    norm_num [randHalf]
  exact ⟨h1, h2, claim_C9_revenue 2025 9 sinZero randHalf h1 h2⟩

end DataDashboard
